import Mathlib

/-
Verification of the manifest/target/profile core of a package build tool
(src/cargo/core/manifest.rs), shallowly embedded in Lean 4.

Conventions of the embedding:
- Rust `Path` values appear here as the string produced by `.display().to_string()`.
- Rust `uint` fields are `Nat` (no arithmetic is performed on them, so no
  wrap-around modelling is needed).
- `CargoResult<T>` with a `human(...)` error is `Except String T`, carrying the
  formatted error message.
- The `Hash` implementation for `Profile` writes the ordered tuple
  `(opt_level, codegen_units, debug, plugin, dest, harness)` into the hasher;
  its fingerprint is therefore modelled as that tuple itself, the exact data
  determining the hash stream.
-/

namespace Cargo

/-- Modelled from the spec: the external dependency record referenced by the
package summary; this core only copies it into its serialized projection. -/
structure Dependency where
  name : String
  version_req : String
  source : String
deriving DecidableEq, Repr

/-- Modelled from the spec: the serialized projection of a dependency
(name / version requirement / source text). -/
structure SerializedDependency where
  name : String
  version_req : String
  source : String
deriving DecidableEq, Repr

def SerializedDependency.from_dependency (d : Dependency) : SerializedDependency :=
  { name := d.name, version_req := d.version_req, source := d.source }

/-- Modelled from the spec: the external PackageSummary collaborator
(name + version + dependency list); consumed verbatim, never reimplemented. -/
structure Summary where
  name : String
  version : String
  dependencies : List Dependency
deriving DecidableEq, Repr

def Summary.get_name (s : Summary) : String := s.name

def Summary.get_version (s : Summary) : String := s.version

def Summary.get_dependencies (s : Summary) : List Dependency := s.dependencies

/-- Modelled from the spec: the external source identifier; stored opaquely. -/
def SourceId : Type := String
deriving instance DecidableEq, Repr for SourceId

/-- Modelled from the spec: the external Metadata collaborator, an opaque token
exposing a textual filename-disambiguation suffix `extra_filename`. -/
structure Metadata where
  metadata : String
  extra_filename : String
deriving DecidableEq, Repr

/-- The closed enumeration of library output kinds. -/
inductive LibKind where
  | Lib
  | Rlib
  | Dylib
  | StaticLib
deriving DecidableEq, Repr

namespace LibKind

/-- Rust `LibKind::from_str`: exact match against the four textual names, otherwise a
human error naming the offending string and the accepted set. -/
def from_str (string : String) : Except String LibKind :=
  if string = "lib" then .ok .Lib
  else if string = "rlib" then .ok .Rlib
  else if string = "dylib" then .ok .Dylib
  else if string = "staticlib" then .ok .StaticLib
  else .error (string ++ " was not one of lib|rlib|dylib|staticlib")

/-- Rust `LibKind::from_strs`: `strings.iter().map(from_str).collect()` on a
`CargoResult`, which stops at the first error. -/
def from_strs : List String → Except String (List LibKind)
  | [] => .ok []
  | s :: rest =>
    match from_str s with
    | .error e => .error e
    | .ok k =>
      match from_strs rest with
      | .error e => .error e
      | .ok ks => .ok (k :: ks)

/-- Rust `LibKind::crate_type`: the fixed compiler-facing output-type token. -/
def crate_type : LibKind → String
  | .Lib => "lib"
  | .Rlib => "rlib"
  | .Dylib => "dylib"
  | .StaticLib => "staticlib"

end LibKind

/-- TargetKind: a library target carrying its declared kind list, or a binary. -/
inductive TargetKind where
  | LibTarget (kinds : List LibKind)
  | BinTarget
deriving DecidableEq, Repr

/-- Profile: the build-configuration record. -/
structure Profile where
  env : String
  opt_level : Nat
  codegen_units : Option Nat
  debug : Bool
  test : Bool
  doctest : Bool
  doc : Bool
  dest : Option String
  plugin : Bool
  harness : Bool
deriving DecidableEq, Repr

namespace Profile

/-- Rust `Profile::default`: the shared baseline of all presets. -/
def default : Profile :=
  { env := ""
    opt_level := 0
    codegen_units := none
    debug := false
    test := false
    doc := false
    dest := none
    plugin := false
    doctest := false
    harness := true }

def default_dev : Profile :=
  { default with env := "compile", opt_level := 0, debug := true }

def default_test : Profile :=
  { default with env := "test", debug := true, test := true, dest := none }

def default_bench : Profile :=
  { default with env := "bench", opt_level := 3, test := true,
                 dest := some "release" }

def default_release : Profile :=
  { default with env := "release", opt_level := 3, dest := some "release" }

def default_doc : Profile :=
  { default with env := "doc", dest := none, doc := true }

def is_compile (p : Profile) : Bool := p.env = "compile"

def is_doc (p : Profile) : Bool := p.doc

def is_test (p : Profile) : Bool := p.test

def uses_test_harness (p : Profile) : Bool := p.harness

def is_doctest (p : Profile) : Bool := p.doctest

def is_plugin (p : Profile) : Bool := p.plugin

def get_opt_level (p : Profile) : Nat := p.opt_level

def get_codegen_units (p : Profile) : Option Nat := p.codegen_units

def get_debug (p : Profile) : Bool := p.debug

def get_env (p : Profile) : String := p.env

def get_dest (p : Profile) : Option String := p.dest

def set_opt_level (p : Profile) (level : Nat) : Profile :=
  { p with opt_level := level }

def set_codegen_units (p : Profile) (units : Option Nat) : Profile :=
  { p with codegen_units := units }

def set_debug (p : Profile) (debug : Bool) : Profile :=
  { p with debug := debug }

def set_test (p : Profile) (test : Bool) : Profile :=
  { p with test := test }

def set_doctest (p : Profile) (doctest : Bool) : Profile :=
  { p with doctest := doctest }

def set_doc (p : Profile) (doc : Bool) : Profile :=
  { p with doc := doc }

def set_plugin (p : Profile) (plugin : Bool) : Profile :=
  { p with plugin := plugin }

def set_harness (p : Profile) (harness : Bool) : Profile :=
  { p with harness := harness }

/-- Rust `hash::Hash for Profile`: the implementation destructures all ten fields,
discards `doc`, `env`, `test`, `doctest`, and feeds the ordered tuple
`(opt_level, codegen_units, debug, plugin, dest, harness)` to the hasher.
The fingerprint is that tuple: the exact data the hash is computed from. -/
def fingerprint (p : Profile) : Nat × Option Nat × Bool × Bool × Option String × Bool :=
  (p.opt_level, p.codegen_units, p.debug, p.plugin, p.dest, p.harness)

end Profile

/-- Target: one compilable unit. -/
structure Target where
  kind : TargetKind
  name : String
  src_path : String
  profile : Profile
  metadata : Option Metadata
deriving DecidableEq, Repr

/-- SerializedTarget: the serialization projection of a Target. -/
structure SerializedTarget where
  kind : List String
  name : String
  src_path : String
  profile : Profile
  metadata : Option Metadata
deriving DecidableEq, Repr

namespace Target

/-- Rust `Encodable for Target`: library kinds map to their output tokens, a binary
target serializes its kind as `["bin"]`. -/
def encode (t : Target) : SerializedTarget :=
  { kind :=
      match t.kind with
      | .LibTarget kinds => kinds.map (fun k => k.crate_type)
      | .BinTarget => ["bin"]
    name := t.name
    src_path := t.src_path
    profile := t.profile
    metadata := t.metadata }

/-- Rust `Target::file_stem`: the name with the metadata suffix appended when
metadata is present, else the bare name. -/
def file_stem (t : Target) : String :=
  match t.metadata with
  | some metadata => t.name ++ metadata.extra_filename
  | none => t.name

def lib_target (name : String) (crate_targets : List LibKind)
    (src_path : String) (profile : Profile) (metadata : Metadata) : Target :=
  { kind := .LibTarget crate_targets
    name := name
    src_path := src_path
    profile := profile
    metadata := some metadata }

def bin_target (name : String) (src_path : String) (profile : Profile)
    (metadata : Option Metadata) : Target :=
  { kind := .BinTarget
    name := name
    src_path := src_path
    profile := profile
    metadata := metadata }

def example_target (name : String) (src_path : String) (profile : Profile) : Target :=
  { kind := .BinTarget
    name := name
    src_path := src_path
    profile := profile
    metadata := none }

def test_target (name : String) (src_path : String)
    (profile : Profile) (metadata : Metadata) : Target :=
  { kind := .BinTarget
    name := name
    src_path := src_path
    profile := profile
    metadata := some metadata }

def bench_target (name : String) (src_path : String)
    (profile : Profile) (metadata : Metadata) : Target :=
  { kind := .BinTarget
    name := name
    src_path := src_path
    profile := profile
    metadata := some metadata }

def get_name (t : Target) : String := t.name

def get_src_path (t : Target) : String := t.src_path

def is_lib (t : Target) : Bool :=
  match t.kind with
  | .LibTarget _ => true
  | _ => false

def is_dylib (t : Target) : Bool :=
  match t.kind with
  | .LibTarget kinds => kinds.any (fun k => k = .Dylib)
  | _ => false

def is_rlib (t : Target) : Bool :=
  match t.kind with
  | .LibTarget kinds => kinds.any (fun k => k = .Rlib || k = .Lib)
  | _ => false

def is_staticlib (t : Target) : Bool :=
  match t.kind with
  | .LibTarget kinds => kinds.any (fun k => k = .StaticLib)
  | _ => false

def is_bin (t : Target) : Bool :=
  match t.kind with
  | .BinTarget => true
  | _ => false

def get_profile (t : Target) : Profile := t.profile

def get_metadata (t : Target) : Option Metadata := t.metadata

/-- Rust `Target::rustc_crate_types`: output tokens of the declared kinds in order,
or `["bin"]` for a binary target. -/
def rustc_crate_types (t : Target) : List String :=
  match t.kind with
  | .LibTarget kinds => kinds.map (fun kind => kind.crate_type)
  | .BinTarget => ["bin"]

end Target

/-- Manifest: the top-level aggregate of a parsed package declaration. -/
structure Manifest where
  summary : Summary
  authors : List String
  targets : List Target
  target_dir : String
  doc_dir : String
  sources : List SourceId
  build : List String
  warnings : List String
  exclude : List String
deriving DecidableEq, Repr

/-- SerializedManifest: the serialization projection of a Manifest. -/
structure SerializedManifest where
  name : String
  version : String
  dependencies : List SerializedDependency
  authors : List String
  targets : List Target
  target_dir : String
  doc_dir : String
  build : Option (List String)
deriving DecidableEq, Repr

namespace Manifest

/-- Rust `Manifest::new`: takes ownership of the sub-collections and initializes
`authors` and `warnings` to empty. -/
def new (summary : Summary) (targets : List Target)
    (target_dir : String) (doc_dir : String) (sources : List SourceId)
    (build : List String) (exclude : List String) : Manifest :=
  { summary := summary
    authors := []
    targets := targets
    target_dir := target_dir
    doc_dir := doc_dir
    sources := sources
    build := build
    warnings := []
    exclude := exclude }

/-- Rust `Encodable for Manifest`: the build-command list serializes as absent when
empty, as the present list otherwise. -/
def encode (m : Manifest) : SerializedManifest :=
  { name := m.summary.get_name
    version := m.summary.get_version
    dependencies := m.summary.get_dependencies.map SerializedDependency.from_dependency
    authors := m.authors
    targets := m.targets
    target_dir := m.target_dir
    doc_dir := m.doc_dir
    build := if m.build.length = 0 then none else some m.build }

def get_summary (m : Manifest) : Summary := m.summary

def get_authors (m : Manifest) : List String := m.authors

def get_targets (m : Manifest) : List Target := m.targets

def get_target_dir (m : Manifest) : String := m.target_dir

def get_doc_dir (m : Manifest) : String := m.doc_dir

def get_source_ids (m : Manifest) : List SourceId := m.sources

def get_build (m : Manifest) : List String := m.build

def add_warning (m : Manifest) (s : String) : Manifest :=
  { m with warnings := m.warnings ++ [s] }

def get_warnings (m : Manifest) : List String := m.warnings

def get_exclude (m : Manifest) : List String := m.exclude

end Manifest

/-- Claim C1: two Profiles that agree on optimization level, codegen-unit
count, debug flag, plugin flag, destination override and harness flag have
equal fingerprints; the excluded fields env, doc, test and doctest have no
influence on the fingerprint. -/
theorem profile_fingerprint_independent (p1 p2 : Profile)
    (h1 : p1.opt_level = p2.opt_level)
    (h2 : p1.codegen_units = p2.codegen_units)
    (h3 : p1.debug = p2.debug)
    (h4 : p1.plugin = p2.plugin)
    (h5 : p1.dest = p2.dest)
    (h6 : p1.harness = p2.harness) :
    p1.fingerprint = p2.fingerprint := by
  simp [Profile.fingerprint, h1, h2, h3, h4, h5, h6]

/-- Witness for C1: the test preset with doc, doctest flags flipped and env
changed is a different Profile with the same fingerprint as the test preset. -/
theorem profile_fingerprint_independent_witness :
    ({ Profile.default_test with
         env := "doc", doc := true, test := false, doctest := true } :
       Profile) ≠ Profile.default_test ∧
    Profile.fingerprint
        { Profile.default_test with
            env := "doc", doc := true, test := false, doctest := true } =
      Profile.fingerprint Profile.default_test :=
  ⟨by decide,
   profile_fingerprint_independent _ _ rfl rfl rfl rfl rfl rfl⟩

/-- Claim C2: two Profiles differing in at least one of optimization level,
codegen-unit count, debug flag, plugin flag, destination override or harness
flag have distinct fingerprints: the fingerprint is exactly the ordered tuple
of these six fields. -/
theorem profile_fingerprint_sensitive (p1 p2 : Profile)
    (h : p1.opt_level ≠ p2.opt_level ∨ p1.codegen_units ≠ p2.codegen_units ∨
         p1.debug ≠ p2.debug ∨ p1.plugin ≠ p2.plugin ∨
         p1.dest ≠ p2.dest ∨ p1.harness ≠ p2.harness) :
    p1.fingerprint ≠ p2.fingerprint := by
  intro heq
  simp only [Profile.fingerprint, Prod.mk.injEq] at heq
  obtain ⟨e1, e2, e3, e4, e5, e6⟩ := heq
  rcases h with h | h | h | h | h | h <;> exact h (by assumption)

/-- Witness for C2: the dev preset and the release preset differ in
optimization level, hence have distinct fingerprints. -/
theorem profile_fingerprint_sensitive_witness :
    (Profile.default_dev).opt_level ≠ (Profile.default_release).opt_level ∧
    Profile.fingerprint Profile.default_dev ≠
      Profile.fingerprint Profile.default_release :=
  ⟨by decide,
   profile_fingerprint_sensitive _ _ (Or.inl (by decide))⟩

/-- Claim C5: `LibKind.from_str` succeeds exactly on the four strings lib,
rlib, dylib, staticlib; on each of them the parsed kind maps back to the
original string via `crate_type`; on any other string it fails with the error
message naming the string and the full accepted set. -/
theorem from_str_spec (s : String) :
    ((s = "lib" ∨ s = "rlib" ∨ s = "dylib" ∨ s = "staticlib") →
       ∃ k, LibKind.from_str s = .ok k ∧ k.crate_type = s) ∧
    (s ≠ "lib" → s ≠ "rlib" → s ≠ "dylib" → s ≠ "staticlib" →
       LibKind.from_str s =
         .error (s ++ " was not one of lib|rlib|dylib|staticlib")) := by
  refine ⟨?_, ?_⟩
  · rintro (rfl | rfl | rfl | rfl) <;> exact ⟨_, rfl, rfl⟩
  · intro h1 h2 h3 h4
    simp [LibKind.from_str, h1, h2, h3, h4]

/-- Witness for C5: "rlib" parses to a kind whose token is "rlib", while
"foo" fails with the error naming "foo" and the accepted set. -/
theorem from_str_spec_witness :
    (∃ k, LibKind.from_str "rlib" = .ok k ∧ k.crate_type = "rlib") ∧
    LibKind.from_str "foo" =
      .error ("foo" ++ " was not one of lib|rlib|dylib|staticlib") :=
  ⟨(from_str_spec "rlib").1 (Or.inr (Or.inl rfl)),
   (from_str_spec "foo").2 (by decide) (by decide) (by decide) (by decide)⟩

/-- Claim C7: `file_stem` is the name of the Target with the Metadata suffix
appended verbatim when the metadata is present and the bare name when absent;
`lib_target` always attaches its metadata and `example_target` never does. -/
theorem file_stem_spec :
    (∀ (t : Target) (m : Metadata), t.metadata = some m →
        t.file_stem = t.name ++ m.extra_filename) ∧
    (∀ t : Target, t.metadata = none → t.file_stem = t.name) ∧
    (∀ (name : String) (kinds : List LibKind) (src : String)
        (profile : Profile) (m : Metadata),
        (Target.lib_target name kinds src profile m).file_stem =
          name ++ m.extra_filename) ∧
    (∀ (name src : String) (profile : Profile),
        (Target.example_target name src profile).file_stem = name) := by
  refine ⟨?_, ?_, ?_, ?_⟩
  · intro t m h
    simp [Target.file_stem, h]
  · intro t h
    simp [Target.file_stem, h]
  · intro name kinds src profile m
    simp [Target.file_stem, Target.lib_target]
  · intro name src profile
    simp [Target.file_stem, Target.example_target]

/-- Witness for C7: a `lib_target` named "mylib" with suffix "-abc123" has
file stem "mylib-abc123"; an `example_target` named "demo" has file stem
"demo". -/
theorem file_stem_spec_witness :
    (Target.lib_target "mylib" [.Lib] "src/lib.rs" Profile.default_dev
        { metadata := "", extra_filename := "-abc123" }).file_stem =
      "mylib-abc123" ∧
    (Target.example_target "demo" "examples/demo.rs"
        Profile.default_dev).file_stem = "demo" :=
  ⟨(file_stem_spec.2.2.1 "mylib" [.Lib] "src/lib.rs" Profile.default_dev
      { metadata := "", extra_filename := "-abc123" }).trans rfl,
   file_stem_spec.2.2.2 "demo" "examples/demo.rs" Profile.default_dev⟩

/-- Claim C3: for library Targets, `is_rlib` holds exactly when the declared
kind list contains `Rlib` or plain `Lib`, `is_dylib` exactly when it contains
`Dylib`, `is_staticlib` exactly when it contains `StaticLib`; for non-library
Targets all three are false. -/
theorem target_kind_predicates_spec :
    (∀ (t : Target) (kinds : List LibKind), t.kind = .LibTarget kinds →
       (t.is_rlib = true ↔ LibKind.Rlib ∈ kinds ∨ LibKind.Lib ∈ kinds) ∧
       (t.is_dylib = true ↔ LibKind.Dylib ∈ kinds) ∧
       (t.is_staticlib = true ↔ LibKind.StaticLib ∈ kinds)) ∧
    (∀ t : Target, t.kind = .BinTarget →
       t.is_rlib = false ∧ t.is_dylib = false ∧ t.is_staticlib = false) := by
  constructor
  · intro t kinds h
    refine ⟨?_, ?_, ?_⟩
    · simp only [Target.is_rlib, h, List.any_eq_true, Bool.or_eq_true,
        decide_eq_true_eq]
      constructor
      · rintro ⟨k, hk, rfl | rfl⟩
        · exact Or.inl hk
        · exact Or.inr hk
      · rintro (hk | hk)
        · exact ⟨_, hk, Or.inl rfl⟩
        · exact ⟨_, hk, Or.inr rfl⟩
    · simp only [Target.is_dylib, h, List.any_eq_true, decide_eq_true_eq]
      constructor
      · rintro ⟨k, hk, rfl⟩
        exact hk
      · intro hk
        exact ⟨_, hk, rfl⟩
    · simp only [Target.is_staticlib, h, List.any_eq_true, decide_eq_true_eq]
      constructor
      · rintro ⟨k, hk, rfl⟩
        exact hk
      · intro hk
        exact ⟨_, hk, rfl⟩
  · intro t h
    exact ⟨by simp [Target.is_rlib, h], by simp [Target.is_dylib, h],
           by simp [Target.is_staticlib, h]⟩

/-- Witness for C3: kind set `[Lib]` and kind set `[Rlib]` both report
`is_rlib = true`; kind set `[Dylib]` reports `is_rlib = false`. -/
theorem target_kind_predicates_spec_witness :
    (Target.lib_target "a" [.Lib] "s" Profile.default_dev ⟨"", ""⟩).is_rlib
      = true ∧
    (Target.lib_target "b" [.Rlib] "s" Profile.default_dev ⟨"", ""⟩).is_rlib
      = true ∧
    (Target.lib_target "c" [.Dylib] "s" Profile.default_dev ⟨"", ""⟩).is_rlib
      = false :=
  ⟨((target_kind_predicates_spec.1 _ [.Lib] rfl).1).mpr (Or.inr (by decide)),
   ((target_kind_predicates_spec.1 _ [.Rlib] rfl).1).mpr (Or.inl (by decide)),
   by decide⟩

/-- Claim C4: `rustc_crate_types` maps each declared kind of a library Target
to its output token in declaration order with duplicates preserved, and
returns exactly `["bin"]` for a binary Target. -/
theorem rustc_crate_types_spec :
    (∀ (t : Target) (kinds : List LibKind), t.kind = .LibTarget kinds →
        t.rustc_crate_types = kinds.map LibKind.crate_type) ∧
    (∀ t : Target, t.kind = .BinTarget → t.rustc_crate_types = ["bin"]) := by
  constructor
  · intro t kinds h
    simp [Target.rustc_crate_types, h]
  · intro t h
    simp [Target.rustc_crate_types, h]

/-- Witness for C4: a duplicated declaration `[Rlib, Dylib, Rlib]` yields the
token list `["rlib", "dylib", "rlib"]` with the duplicate preserved, and a
binary target yields `["bin"]`. -/
theorem rustc_crate_types_spec_witness :
    (Target.lib_target "a" [.Rlib, .Dylib, .Rlib] "s" Profile.default_dev
        ⟨"", ""⟩).rustc_crate_types = ["rlib", "dylib", "rlib"] ∧
    (Target.bin_target "b" "s" Profile.default_dev none).rustc_crate_types
      = ["bin"] :=
  ⟨(rustc_crate_types_spec.1 _ [.Rlib, .Dylib, .Rlib] rfl).trans rfl,
   rustc_crate_types_spec.2 _ rfl⟩

/-- Unfolding equation for `from_strs` on a non-empty list. -/
theorem from_strs_cons (s : String) (rest : List String) :
    LibKind.from_strs (s :: rest) =
      match LibKind.from_str s with
      | .error e => .error e
      | .ok k =>
        match LibKind.from_strs rest with
        | .error e => .error e
        | .ok ks => .ok (k :: ks) := rfl

/-- Lemma: `from_strs` succeeds exactly when every element parses. -/
theorem from_strs_ok_iff (ss : List String) :
    (∃ ks, LibKind.from_strs ss = .ok ks) ↔
      ∀ s ∈ ss, ∃ k, LibKind.from_str s = .ok k := by
  induction ss with
  | nil => simp [LibKind.from_strs]
  | cons s rest ih =>
    rw [from_strs_cons]
    cases hs : LibKind.from_str s with
    | error e => simp [hs]
    | ok k =>
      cases hr : LibKind.from_strs rest with
      | error e => simp [hs, hr, ← ih]
      | ok ks => simp [hs, hr, ← ih]

/-- A successful `from_strs` run parses element-wise in input order. -/
theorem from_strs_forall2 (ss : List String) (ks : List LibKind)
    (h : LibKind.from_strs ss = .ok ks) :
    List.Forall₂ (fun s k => LibKind.from_str s = .ok k) ss ks := by
  induction ss generalizing ks with
  | nil =>
    simp only [LibKind.from_strs, Except.ok.injEq] at h
    subst h
    exact List.Forall₂.nil
  | cons s rest ih =>
    rw [from_strs_cons] at h
    cases hs : LibKind.from_str s with
    | error e =>
      rw [hs] at h
      cases h
    | ok k =>
      rw [hs] at h
      cases hr : LibKind.from_strs rest with
      | error e =>
        rw [hr] at h
        cases h
      | ok ks2 =>
        rw [hr] at h
        cases h
        exact List.Forall₂.cons hs (ih _ hr)

/-- Lemma: `from_strs` short-circuits: with a valid run-up and a first invalid
element, the result is the parse error of that element. -/
theorem from_strs_first_error (pre : List String) (s : String)
    (post : List String)
    (hpre : ∀ p ∈ pre, ∃ k, LibKind.from_str p = .ok k)
    (hs : ∀ k, LibKind.from_str s ≠ .ok k) :
    ∃ e, LibKind.from_str s = .error e ∧
      LibKind.from_strs (pre ++ s :: post) = .error e := by
  induction pre with
  | nil =>
    cases h : LibKind.from_str s with
    | error e =>
      refine ⟨e, rfl, ?_⟩
      rw [List.nil_append, from_strs_cons, h]
    | ok k => exact absurd h (hs k)
  | cons p pre2 ih =>
    obtain ⟨k, hk⟩ := hpre p (List.mem_cons_self _ _)
    obtain ⟨e, he, hrec⟩ := ih (fun q hq => hpre q (List.mem_cons_of_mem _ hq))
    refine ⟨e, he, ?_⟩
    rw [List.cons_append, from_strs_cons, hk, hrec]

/-- Claim C6: `from_strs` succeeds exactly when every element is a valid
crate-kind name, returning element-wise parsed kinds in input order; with any
invalid element it returns the parse error of the first invalid one, with no
partial result. -/
theorem from_strs_spec (ss : List String) :
    ((∃ ks, LibKind.from_strs ss = .ok ks) ↔
       ∀ s ∈ ss, ∃ k, LibKind.from_str s = .ok k) ∧
    (∀ ks, LibKind.from_strs ss = .ok ks →
       List.Forall₂ (fun s k => LibKind.from_str s = .ok k) ss ks) ∧
    (∀ (pre : List String) (s : String) (post : List String),
       ss = pre ++ s :: post →
       (∀ p ∈ pre, ∃ k, LibKind.from_str p = .ok k) →
       (∀ k, LibKind.from_str s ≠ .ok k) →
       ∃ e, LibKind.from_str s = .error e ∧
         LibKind.from_strs ss = .error e) := by
  refine ⟨from_strs_ok_iff ss, fun ks h => from_strs_forall2 ss ks h, ?_⟩
  intro pre s post hss hpre hs
  subst hss
  exact from_strs_first_error pre s post hpre hs

/-- Witness for C6: parsing `["lib", "foo", "rlib"]` short-circuits on the
invalid entry "foo" and returns its parse error. -/
theorem from_strs_spec_witness :
    ∃ e, LibKind.from_str "foo" = .error e ∧
      LibKind.from_strs ["lib", "foo", "rlib"] = .error e :=
  (from_strs_spec ["lib", "foo", "rlib"]).2.2 ["lib"] "foo" ["rlib"] rfl
    (by
      intro p hp
      rw [List.mem_singleton] at hp
      subst hp
      exact ⟨LibKind.Lib, rfl⟩)
    (by
      intro k h
      cases k <;> simp [LibKind.from_str] at h)

/-- Claim C8: the serialized projection of a Manifest carries the build field
as absent exactly when the build-command list is empty, and as the present
list when non-empty; an empty list is never serialized as an empty list. -/
theorem manifest_encode_build_spec (m : Manifest) :
    (m.encode.build = none ↔ m.build = []) ∧
    (m.build ≠ [] → m.encode.build = some m.build) := by
  constructor
  · by_cases h : m.build = [] <;>
      simp [Manifest.encode, h, List.length_eq_zero]
  · intro h
    simp [Manifest.encode, List.length_eq_zero, h]

/-- Witness for C8: a Manifest with no build commands serializes the build
field as `none`; one with `["echo hi"]` serializes it as that list. -/
theorem manifest_encode_build_spec_witness :
    (Manifest.new ⟨"pkg", "1.0.0", []⟩ [] "target" "doc" [] []
        []).encode.build = none ∧
    (Manifest.new ⟨"pkg", "1.0.0", []⟩ [] "target" "doc" [] ["echo hi"]
        []).encode.build = some ["echo hi"] :=
  ⟨(manifest_encode_build_spec _).1.mpr rfl,
   (manifest_encode_build_spec _).2 (by decide)⟩

/-- Claim C9: every Manifest built by `Manifest.new` has an empty authors
list: `get_authors` is empty, the authors field of the serialized projection is
empty, and the only post-construction mutation `add_warning` leaves the
authors empty. -/
theorem manifest_new_authors_empty (summary : Summary) (targets : List Target)
    (target_dir doc_dir : String) (sources : List SourceId)
    (build exclude : List String) :
    (Manifest.new summary targets target_dir doc_dir sources build
        exclude).get_authors = [] ∧
    (Manifest.new summary targets target_dir doc_dir sources build
        exclude).encode.authors = [] ∧
    (∀ w : String,
       ((Manifest.new summary targets target_dir doc_dir sources build
           exclude).add_warning w).get_authors = []) :=
  ⟨rfl, rfl, fun _ => rfl⟩

/-- Claim C10: `bin_target`, `example_target`, `test_target` and
`bench_target` all construct Targets of kind `BinTarget`, and every
`BinTarget` Target reports `is_bin` true, all library predicates false, and
crate types `["bin"]`. -/
theorem bin_family_targets_spec (name src : String) (profile : Profile)
    (md : Option Metadata) (m1 m2 : Metadata) :
    ((Target.bin_target name src profile md).kind = .BinTarget ∧
     (Target.example_target name src profile).kind = .BinTarget ∧
     (Target.test_target name src profile m1).kind = .BinTarget ∧
     (Target.bench_target name src profile m2).kind = .BinTarget) ∧
    (∀ t : Target, t.kind = .BinTarget →
       t.is_bin = true ∧ t.is_lib = false ∧ t.is_rlib = false ∧
       t.is_dylib = false ∧ t.is_staticlib = false ∧
       t.rustc_crate_types = ["bin"]) := by
  refine ⟨⟨rfl, rfl, rfl, rfl⟩, ?_⟩
  intro t h
  refine ⟨?_, ?_, ?_, ?_, ?_, ?_⟩ <;>
    simp [Target.is_bin, Target.is_lib, Target.is_rlib, Target.is_dylib,
          Target.is_staticlib, Target.rustc_crate_types, h]

/-- Witness for C10: a concrete test target is a binary target with
`is_bin = true`. -/
theorem bin_family_targets_spec_witness :
    (Target.test_target "t" "tests/t.rs" Profile.default_test
        ⟨"", "-x"⟩).is_bin = true :=
  ((bin_family_targets_spec "t" "tests/t.rs" Profile.default_test none
      ⟨"", "-x"⟩ ⟨"", "-x"⟩).2 _ rfl).1

end Cargo
